import Mathlib

/-!
Verification of the Pub/Sub → BigQuery ingestion worker
(`pull_data_from_pub_sub.py`).

The embedding models:
* Python values obtained from `json.loads` (`JValue`; `JValue.null` is
  Python `None`, `JValue.obj` is a Python dict with unique keys as
  produced by `json.loads`);
* `dateutil.parser.parse` on the ISO-8601 subset exercised by this
  pipeline (`parseDateTime?`) together with `datetime.isoformat`;
* Python's `float()` coercion on the JSON value domain
  (`convert_to_float`, with decimal string literals parsed by
  `parseFloat?` into exact rationals);
* the message-processing callback as a pure function of an environment
  (decode outcome, BigQuery insert outcome, the `utcnow()` clock) that
  returns the observable effects: log lines, number of `event.ack()`
  calls, and the rows passed to `insert_rows_json`.  Exceptions are
  modelled with `Except`/`Option PyExc`, mirroring the `try/except`
  boundaries of the source.
-/

/-- Values of the Python data model after `json.loads`:
`null` is Python `None`, `obj` a dict (unique keys). -/
inductive JValue where
  | null : JValue
  | bool (b : Bool) : JValue
  | num (q : ℚ) : JValue
  | str (s : String) : JValue
  | arr (xs : List JValue) : JValue
  | obj (kvs : List (String × JValue)) : JValue

/-- Exceptions that the Python code can raise inside the callback body. -/
inductive PyExc where
  | jsonDecodeError : PyExc
  | unicodeDecodeError : PyExc
  | attributeError : PyExc
  | other (msg : String) : PyExc
deriving DecidableEq, Repr

/-- Model of `dict.get(key)`: the stored value, or Python `None`
(`JValue.null`) when the key is absent.  Keys are unique in a dict
produced by `json.loads`, so first-match lookup is the dict lookup. -/
def dictGet (kvs : List (String × JValue)) (k : String) : JValue :=
  match kvs.lookup k with
  | some v => v
  | none => .null

/-- A `datetime.datetime` value: calendar fields plus an optional fixed
UTC offset in minutes (`none` models a naive datetime such as the result
of `datetime.utcnow()`). -/
structure DateTime where
  year : Nat
  month : Nat
  day : Nat
  hour : Nat
  minute : Nat
  second : Nat
  tz : Option Int := none
deriving DecidableEq, Repr

/-- Gregorian leap-year rule used by `datetime` for day-of-month
validation. -/
def isLeap (y : Nat) : Bool :=
  (y % 4 = 0 && y % 100 ≠ 0) || y % 400 = 0

/-- Number of days in a month, as validated by the `datetime`
constructor. -/
def daysInMonth (y m : Nat) : Nat :=
  if m = 2 then (if isLeap y then 29 else 28)
  else if m = 4 || m = 6 || m = 9 || m = 11 then 30
  else 31

/-- Range validation performed by the `datetime` constructor: a
`DateTime` is produced only for a representable instant. -/
def mkDateTime? (y mo d h mi s : Nat) (tz : Option Int) : Option DateTime :=
  if 1 ≤ y && y ≤ 9999 && 1 ≤ mo && mo ≤ 12 && 1 ≤ d && d ≤ daysInMonth y mo
      && h ≤ 23 && mi ≤ 59 && s ≤ 59 then
    some ⟨y, mo, d, h, mi, s, tz⟩
  else
    none

/-- Numeric value of a run of decimal digit characters. -/
def digitsVal (cs : List Char) : Nat :=
  cs.foldl (fun a c => a * 10 + (c.toNat - 48)) 0

/-- Consume exactly `n` decimal digits from the front of the input. -/
def takeDigits (n : Nat) (cs : List Char) : Option (Nat × List Char) :=
  let pre := cs.take n
  if pre.length = n && pre.all Char.isDigit then
    some (digitsVal pre, cs.drop n)
  else
    none

/-- Consume one expected character from the front of the input. -/
def expectChar (c : Char) (cs : List Char) : Option (List Char) :=
  match cs with
  | c' :: r => if c' = c then some r else none
  | [] => none

/-- Parse an optional trailing timezone designator: nothing (naive),
`Z` (UTC), or a signed `±HH:MM` offset bounded below one day, as
`dateutil` accepts and `datetime` admits.  Unconsumed input is returned
for the caller to reject. -/
def parseTz (cs : List Char) : Option (Option Int × List Char) :=
  match cs with
  | [] => some (none, [])
  | 'Z' :: r => some (some 0, r)
  | '+' :: r => do
      let (h, r) ← takeDigits 2 r
      let r ← expectChar ':' r
      let (m, r) ← takeDigits 2 r
      if m ≤ 59 && h * 60 + m < 1440 then some (some (Int.ofNat (h * 60 + m)), r)
      else none
  | '-' :: r => do
      let (h, r) ← takeDigits 2 r
      let r ← expectChar ':' r
      let (m, r) ← takeDigits 2 r
      if m ≤ 59 && h * 60 + m < 1440 then some (some (-(Int.ofNat (h * 60 + m))), r)
      else none
  | _ => some (none, cs)

/-- Model of `dateutil.parser.parse` restricted to the ISO-8601 shapes
this pipeline exchanges: `YYYY-MM-DD`, optionally followed by
`T`/space and `HH:MM:SS`, optionally followed by `Z` or `±HH:MM`.
Any other string makes the parser raise, modelled as `none`. -/
def parseDateTime? (s : String) : Option DateTime := do
  let cs := s.toList
  let (y, cs) ← takeDigits 4 cs
  let cs ← expectChar '-' cs
  let (mo, cs) ← takeDigits 2 cs
  let cs ← expectChar '-' cs
  let (d, cs) ← takeDigits 2 cs
  match cs with
  | [] => mkDateTime? y mo d 0 0 0 none
  | c :: rest =>
      if c = 'T' || c = ' ' then do
        let (h, cs) ← takeDigits 2 rest
        let cs ← expectChar ':' cs
        let (mi, cs) ← takeDigits 2 cs
        let cs ← expectChar ':' cs
        let (sec, cs) ← takeDigits 2 cs
        let (tz, cs) ← parseTz cs
        if cs.isEmpty then mkDateTime? y mo d h mi sec tz else none
      else
        none

/-- Left-pad a decimal rendering with zeros, as `datetime.isoformat`
does for each field. -/
def padNum (width n : Nat) : String :=
  let s := toString n
  if s.length < width then String.mk (List.replicate (width - s.length) '0') ++ s
  else s

/-- Model of `datetime.isoformat()` (microseconds are zero throughout
this model, so the fractional part is omitted, as Python does). -/
def DateTime.isoformat (dt : DateTime) : String :=
  padNum 4 dt.year ++ "-" ++ padNum 2 dt.month ++ "-" ++ padNum 2 dt.day ++ "T"
    ++ padNum 2 dt.hour ++ ":" ++ padNum 2 dt.minute ++ ":" ++ padNum 2 dt.second
    ++ match dt.tz with
       | none => ""
       | some off =>
           (if off < 0 then "-" else "+")
             ++ padNum 2 (off.natAbs / 60) ++ ":" ++ padNum 2 (off.natAbs % 60)

/-- Model of Python `float(s)` on a string: optional surrounding
whitespace, optional sign, decimal digits with an optional fractional
part and an optional exponent, evaluated exactly as a rational.  Any
other string raises `ValueError`, modelled as `none`.  (The special
literals `inf`/`nan` and digit underscores are outside the model.) -/
def parseFloat? (s : String) : Option ℚ :=
  let cs := s.toList.dropWhile Char.isWhitespace
  let cs := (cs.reverse.dropWhile Char.isWhitespace).reverse
  let (neg, cs) :=
    match cs with
    | '+' :: r => (false, r)
    | '-' :: r => (true, r)
    | r => (false, r)
  let ip := cs.takeWhile Char.isDigit
  let cs := cs.dropWhile Char.isDigit
  let (fp, cs) :=
    match cs with
    | '.' :: r => (r.takeWhile Char.isDigit, r.dropWhile Char.isDigit)
    | r => ([], r)
  if ip.isEmpty && fp.isEmpty then none
  else
    let mant : ℚ := (digitsVal ip : ℚ) + (digitsVal fp : ℚ) / (10 : ℚ) ^ fp.length
    let signed : ℚ := if neg then -mant else mant
    match cs with
    | [] => some signed
    | c :: r =>
        if c = 'e' || c = 'E' then
          let (eneg, r) :=
            match r with
            | '+' :: r2 => (false, r2)
            | '-' :: r2 => (true, r2)
            | r2 => (false, r2)
          let ed := r.takeWhile Char.isDigit
          let rest := r.dropWhile Char.isDigit
          if ed.isEmpty || !rest.isEmpty then none
          else
            let e := digitsVal ed
            some (if eneg then signed / (10 : ℚ) ^ e else signed * (10 : ℚ) ^ e)
        else
          none

/-- Source `convert_to_timestamp`: `return parse(value).isoformat()`
under `try/except`.  `dateutil.parser.parse` raises `TypeError` on a
non-string value from the JSON domain, and a parse error on an
unparsable string; both are caught and yield `None`. -/
def convert_to_timestamp (value : JValue) : Option String :=
  match value with
  | .str s => (parseDateTime? s).map DateTime.isoformat
  | _ => none

/-- Source `convert_to_float`: `return float(value)` under
`try/except`.  `float` succeeds on numbers, booleans (`True → 1.0`)
and numeric string literals; on `None`, non-numeric strings, lists and
dicts it raises, caught and yielding `None`. -/
def convert_to_float (value : JValue) : Option ℚ :=
  match value with
  | .num q => some q
  | .bool b => some (if b then 1 else 0)
  | .str s => parseFloat? s
  | _ => none

/-- The typed row built in `callback` and passed to
`insert_rows_json` (the OrderEvent of the spec). -/
structure Row where
  order_id : JValue
  event_type : JValue
  event_timestamp : Option String
  order_created_at : Option String
  customer_id : JValue
  amount : Option ℚ
  currency : JValue
  source : JValue
  ingested_at : String

/-- The `row = {...}` dictionary literal of `callback`, with `now`
standing for the value of `datetime.utcnow()` (a naive datetime). -/
def buildRow (data : List (String × JValue)) (now : DateTime) : Row :=
  { order_id := dictGet data "order_id"
    event_type := dictGet data "event_type"
    event_timestamp := convert_to_timestamp (dictGet data "event_timestamp")
    order_created_at := convert_to_timestamp (dictGet data "order_created_at")
    customer_id := dictGet data "customer_id"
    amount := convert_to_float (dictGet data "amount")
    currency := dictGet data "currency"
    source := dictGet data "source"
    ingested_at := now.isoformat ++ "Z" }

/-- Log lines printed by `callback`, by content rather than by their
exact formatted text. -/
inductive LogLine where
  | received : LogLine
  | orderId (v : JValue) : LogLine
  | insertFailed (errors : List String) : LogLine
  | processingFailed (e : PyExc) : LogLine

/-- Environment of one delivery: the outcome of
`json.loads(event.data.decode('utf-8'))`, the outcome of
`bq_client.insert_rows_json` (a list of row errors, or a raised
exception), and the `utcnow()` clock reading. -/
structure Env where
  decodeResult : Except PyExc JValue
  insertResult : Except PyExc (List String)
  now : DateTime

/-- Observable effects of processing one delivery: log lines after the
initial receipt line, number of `event.ack()` calls, and the rows
passed to `insert_rows_json`. -/
structure Effects where
  logs : List LogLine
  acks : Nat
  writeAttempts : List Row

/-- The body of the `try:` block in `callback`: effects accumulated up
to the point where an exception (if any) escapes to the `except`
handler.  A non-dict decode result makes `data.get('order_id')` raise
`AttributeError` before the row is built. -/
def callbackBody (env : Env) : Effects × Option PyExc :=
  match env.decodeResult with
  | .error e => (⟨[], 0, []⟩, some e)
  | .ok data =>
      match data with
      | .obj kvs =>
          let logs0 := [LogLine.orderId (dictGet kvs "order_id")]
          let row := buildRow kvs env.now
          match env.insertResult with
          | .error exc => (⟨logs0, 0, [row]⟩, some exc)
          | .ok errors =>
              if errors.isEmpty then (⟨logs0, 1, [row]⟩, none)
              else (⟨logs0 ++ [LogLine.insertFailed errors], 0, [row]⟩, none)
      | _ => (⟨[], 0, []⟩, some PyExc.attributeError)

/-- The whole `callback`: prints the receipt line, runs the body, and
catches any exception in the `except Exception` handler, logging it.
`callback` itself never raises. -/
def callback (env : Env) : Effects :=
  match callbackBody env with
  | (eff, none) => { eff with logs := LogLine.received :: eff.logs }
  | (eff, some e) =>
      { logs := LogLine.received :: eff.logs ++ [LogLine.processingFailed e]
        acks := eff.acks
        writeAttempts := eff.writeAttempts }

/-- The consumer loop: each delivered message is handed to `callback`;
since `callback` is total, every delivery in the stream is processed. -/
def consumerLoop (envs : List Env) : List Effects :=
  envs.map callback

/-! ## Helper lemmas -/

/-- Whenever the callback body escapes with an exception, no `ack` call
has happened inside it. -/
theorem callbackBody_acks_eq_zero_of_exc (env : Env) (e : PyExc)
    (h : (callbackBody env).2 = some e) : (callbackBody env).1.acks = 0 := by
  obtain ⟨dr, ir, now⟩ := env
  rcases dr with e' | data
  · simp [callbackBody]
  · rcases data with _ | b | q | s | xs | kvs <;>
      simp_all [callbackBody]
    rcases ir with exc | errors
    · simp [callbackBody]
    · rcases errors with _ | ⟨er, ers⟩ <;> simp_all [callbackBody]

/-- Unfolding of `callback` when the body raises. -/
theorem callback_eq_of_exc (env : Env) (e : PyExc)
    (h : (callbackBody env).2 = some e) :
    callback env =
      ⟨LogLine.received :: (callbackBody env).1.logs ++ [LogLine.processingFailed e],
        (callbackBody env).1.acks, (callbackBody env).1.writeAttempts⟩ := by
  have heq : callbackBody env = ((callbackBody env).1, some e) := by
    rw [← h]
  unfold callback
  rw [heq]

/-! ## Claims -/

/-- C1: for a delivered message that decodes to a dict and whose sink
write returns an error collection (rather than raising), `event.ack()`
is called exactly once when the collection is empty, and never when it
is non-empty. -/
theorem ack_iff_no_insert_errors (env : Env) (kvs : List (String × JValue))
    (errors : List String)
    (hd : env.decodeResult = .ok (.obj kvs)) (hw : env.insertResult = .ok errors) :
    (errors = [] → (callback env).acks = 1) ∧
    (errors ≠ [] → (callback env).acks = 0) := by
  obtain ⟨dr, ir, now⟩ := env
  dsimp only at hd hw
  subst hd; subst hw
  rcases errors with _ | ⟨er, ers⟩ <;> simp [callback, callbackBody]

theorem ack_iff_no_insert_errors_witness :
    (callback ⟨.ok (.obj [("order_id", .str "o1")]), .ok [], ⟨2024, 1, 1, 0, 0, 0, none⟩⟩).acks
      = 1 :=
  (ack_iff_no_insert_errors _ [("order_id", .str "o1")] [] rfl rfl).1 rfl

/-- C2: any exception escaping the body of message processing (decode
error, non-dict payload, raised write failure) is caught by the
`except` handler: a failure log line is emitted, `ack` is never called
for that message, and the loop goes on to process every other
delivery. -/
theorem exception_caught_no_ack_loop_continues (env : Env) (e : PyExc)
    (h : (callbackBody env).2 = some e) :
    (callback env).acks = 0 ∧
    LogLine.processingFailed e ∈ (callback env).logs ∧
    ∀ pre post : List Env,
      consumerLoop (pre ++ env :: post)
        = consumerLoop pre ++ callback env :: consumerLoop post := by
  refine ⟨?_, ?_, ?_⟩
  · rw [callback_eq_of_exc env e h]
    exact callbackBody_acks_eq_zero_of_exc env e h
  · rw [callback_eq_of_exc env e h]
    simp
  · intro pre post
    simp [consumerLoop]

theorem exception_caught_no_ack_loop_continues_witness :
    (callback ⟨.error .jsonDecodeError, .ok [], ⟨2024, 1, 1, 0, 0, 0, none⟩⟩).acks = 0 ∧
    LogLine.processingFailed .jsonDecodeError
      ∈ (callback ⟨.error .jsonDecodeError, .ok [], ⟨2024, 1, 1, 0, 0, 0, none⟩⟩).logs :=
  ⟨(exception_caught_no_ack_loop_continues
      ⟨.error .jsonDecodeError, .ok [], ⟨2024, 1, 1, 0, 0, 0, none⟩⟩
      .jsonDecodeError rfl).1,
   (exception_caught_no_ack_loop_continues
      ⟨.error .jsonDecodeError, .ok [], ⟨2024, 1, 1, 0, 0, 0, none⟩⟩
      .jsonDecodeError rfl).2.1⟩

/-- C3: for every payload that decodes to a dict, the transform is
total — a missing (`None`) or unparsable `event_timestamp`,
`order_created_at` or `amount` degrades to `None` in the row — and the
built row always reaches the `insert_rows_json` call, whatever the
write outcome. -/
theorem transform_never_aborts_reaches_write (env : Env)
    (kvs : List (String × JValue))
    (hd : env.decodeResult = .ok (.obj kvs)) :
    (callback env).writeAttempts = [buildRow kvs env.now] ∧
    (dictGet kvs "event_timestamp" = .null →
      (buildRow kvs env.now).event_timestamp = none) ∧
    (∀ s, dictGet kvs "event_timestamp" = .str s → parseDateTime? s = none →
      (buildRow kvs env.now).event_timestamp = none) ∧
    (dictGet kvs "order_created_at" = .null →
      (buildRow kvs env.now).order_created_at = none) ∧
    (∀ s, dictGet kvs "order_created_at" = .str s → parseDateTime? s = none →
      (buildRow kvs env.now).order_created_at = none) ∧
    (dictGet kvs "amount" = .null → (buildRow kvs env.now).amount = none) ∧
    (∀ s, dictGet kvs "amount" = .str s → parseFloat? s = none →
      (buildRow kvs env.now).amount = none) := by
  obtain ⟨dr, ir, now⟩ := env
  dsimp only at hd ⊢
  subst hd
  refine ⟨?_, ?_, ?_, ?_, ?_, ?_, ?_⟩
  · rcases ir with exc | errors
    · simp [callback, callbackBody]
    · rcases errors with _ | ⟨er, ers⟩ <;> simp [callback, callbackBody]
  · intro h; simp [buildRow, convert_to_timestamp, h]
  · intro s hs hp; simp [buildRow, convert_to_timestamp, hs, hp]
  · intro h; simp [buildRow, convert_to_timestamp, h]
  · intro s hs hp; simp [buildRow, convert_to_timestamp, hs, hp]
  · intro h; simp [buildRow, convert_to_float, h]
  · intro s hs hp; simp [buildRow, convert_to_float, hs, hp]

theorem transform_never_aborts_reaches_write_witness :
    (callback ⟨.ok (.obj [("event_timestamp", .str "oops")]), .ok ["boom"],
        ⟨2024, 1, 1, 0, 0, 0, none⟩⟩).writeAttempts
      = [buildRow [("event_timestamp", .str "oops")] ⟨2024, 1, 1, 0, 0, 0, none⟩] ∧
    (buildRow [("event_timestamp", .str "oops")] ⟨2024, 1, 1, 0, 0, 0, none⟩).event_timestamp
      = none :=
  ⟨(transform_never_aborts_reaches_write _ [("event_timestamp", .str "oops")] rfl).1,
   (transform_never_aborts_reaches_write
      ⟨.ok (.obj [("event_timestamp", .str "oops")]), .ok ["boom"],
        ⟨2024, 1, 1, 0, 0, 0, none⟩⟩
      [("event_timestamp", .str "oops")] rfl).2.2.1 "oops" rfl rfl⟩

/-- C4: `ingested_at` is always the worker clock reading rendered by
`isoformat` with the `Z` UTC designator appended, and does not depend
on any field of the payload. -/
theorem ingested_at_worker_assigned (data data' : List (String × JValue))
    (now : DateTime) :
    (buildRow data now).ingested_at = now.isoformat ++ "Z" ∧
    (buildRow data now).ingested_at = (buildRow data' now).ingested_at :=
  ⟨rfl, rfl⟩

/-- C5: `convert_to_timestamp` yields the `isoformat` rendering of the
parsed instant when the value is a parsable string, and `None` when
the value is absent (`None`), not a string, or an unparsable string. -/
theorem convert_to_timestamp_spec (v : JValue) :
    (∀ s dt, v = .str s → parseDateTime? s = some dt →
      convert_to_timestamp v = some dt.isoformat) ∧
    ((∀ s, v ≠ .str s) → convert_to_timestamp v = none) ∧
    (∀ s, v = .str s → parseDateTime? s = none → convert_to_timestamp v = none) := by
  refine ⟨?_, ?_, ?_⟩
  · rintro s dt rfl h
    simp [convert_to_timestamp, h]
  · intro h
    cases v with
    | str s => exact absurd rfl (h s)
    | _ => simp [convert_to_timestamp]
  · rintro s rfl h
    simp [convert_to_timestamp, h]

theorem convert_to_timestamp_spec_witness :
    convert_to_timestamp (.str "2024-01-01")
      = some (DateTime.isoformat ⟨2024, 1, 1, 0, 0, 0, none⟩) ∧
    convert_to_timestamp (.str "not-a-date") = none ∧
    convert_to_timestamp .null = none :=
  ⟨(convert_to_timestamp_spec (.str "2024-01-01")).1 "2024-01-01"
      ⟨2024, 1, 1, 0, 0, 0, none⟩ rfl rfl,
   (convert_to_timestamp_spec (.str "not-a-date")).2.2 "not-a-date" rfl rfl,
   (convert_to_timestamp_spec .null).2.1 (fun _ h => JValue.noConfusion h)⟩

/-- C6: `convert_to_float` yields the numeric coercion of the value —
the number itself, `1.0`/`0.0` for booleans, the parsed value of a
numeric string — and `None` when the value is absent (`None`), a
non-numeric string, a list, or a dict. -/
theorem convert_to_float_spec (v : JValue) :
    (∀ q, v = .num q → convert_to_float v = some q) ∧
    (∀ b, v = .bool b → convert_to_float v = some (if b then 1 else 0)) ∧
    (∀ s q, v = .str s → parseFloat? s = some q → convert_to_float v = some q) ∧
    (v = .null → convert_to_float v = none) ∧
    (∀ s, v = .str s → parseFloat? s = none → convert_to_float v = none) ∧
    (∀ xs, v = .arr xs → convert_to_float v = none) ∧
    (∀ kvs, v = .obj kvs → convert_to_float v = none) := by
  refine ⟨?_, ?_, ?_, ?_, ?_, ?_, ?_⟩
  · rintro q rfl; rfl
  · rintro b rfl; rfl
  · rintro s q rfl h; simp [convert_to_float, h]
  · rintro rfl; rfl
  · rintro s rfl h; simp [convert_to_float, h]
  · rintro xs rfl; rfl
  · rintro kvs rfl; rfl

theorem convert_to_float_spec_witness :
    convert_to_float (.str "free") = none ∧
    convert_to_float .null = none ∧
    convert_to_float (.num (7 : ℚ)) = some (7 : ℚ) :=
  ⟨(convert_to_float_spec (.str "free")).2.2.2.2.1 "free" rfl rfl,
   (convert_to_float_spec .null).2.2.2.1 rfl,
   (convert_to_float_spec (.num (7 : ℚ))).1 (7 : ℚ) rfl⟩

/-- C7: the identifier and enum-like fields of the row are the payload
dict's values for their keys, unvalidated, and are `None` exactly as
`dict.get` defaults when the key is absent. -/
theorem passthrough_fields (kvs : List (String × JValue)) (now : DateTime) :
    ((buildRow kvs now).order_id = dictGet kvs "order_id" ∧
     (buildRow kvs now).event_type = dictGet kvs "event_type" ∧
     (buildRow kvs now).customer_id = dictGet kvs "customer_id" ∧
     (buildRow kvs now).currency = dictGet kvs "currency" ∧
     (buildRow kvs now).source = dictGet kvs "source") ∧
    ((kvs.lookup "order_id" = none → (buildRow kvs now).order_id = .null) ∧
     (kvs.lookup "event_type" = none → (buildRow kvs now).event_type = .null) ∧
     (kvs.lookup "customer_id" = none → (buildRow kvs now).customer_id = .null) ∧
     (kvs.lookup "currency" = none → (buildRow kvs now).currency = .null) ∧
     (kvs.lookup "source" = none → (buildRow kvs now).source = .null)) := by
  refine ⟨⟨rfl, rfl, rfl, rfl, rfl⟩, ?_, ?_, ?_, ?_, ?_⟩ <;>
    · intro h
      simp [buildRow, dictGet, h]

theorem passthrough_fields_witness :
    (buildRow [] ⟨2024, 1, 1, 0, 0, 0, none⟩).order_id = .null :=
  (passthrough_fields [] ⟨2024, 1, 1, 0, 0, 0, none⟩).2.1 rfl

/-- The example payload of spec §8, as decoded by `json.loads`. -/
def examplePayload : List (String × JValue) :=
  [("order_id", .str "o1"), ("event_type", .str "created"),
   ("event_timestamp", .str "not-a-date"),
   ("order_created_at", .str "2024-01-01T00:00:00Z"),
   ("customer_id", .str "c1"), ("amount", .str "12.5"),
   ("currency", .str "USD"), ("source", .str "web")]

/-- C8: on the example payload the row has `event_timestamp = None`,
`order_created_at = "2024-01-01T00:00:00+00:00"` and `amount = 12.5`;
the write is attempted whatever its outcome, and `ack` happens exactly
when the write reports no errors. -/
theorem example_payload_processing (ins : Except PyExc (List String))
    (now : DateTime) :
    (buildRow examplePayload now).event_timestamp = none ∧
    (buildRow examplePayload now).order_created_at
      = some "2024-01-01T00:00:00+00:00" ∧
    (buildRow examplePayload now).amount = some (12.5 : ℚ) ∧
    (callback ⟨.ok (.obj examplePayload), ins, now⟩).writeAttempts
      = [buildRow examplePayload now] ∧
    ((callback ⟨.ok (.obj examplePayload), ins, now⟩).acks = 1 ↔ ins = .ok []) := by
  refine ⟨rfl, rfl, ?_, ?_, ?_⟩
  · have h1 : dictGet examplePayload "amount" = .str "12.5" := rfl
    show convert_to_float (dictGet examplePayload "amount") = some (12.5 : ℚ)
    rw [h1]
    show parseFloat? "12.5" = some (12.5 : ℚ)
    simp +decide [parseFloat?, digitsVal]
    norm_num
  · rcases ins with exc | errors
    · simp [callback, callbackBody]
    · rcases errors with _ | ⟨er, ers⟩ <;> simp [callback, callbackBody]
  · rcases ins with exc | errors
    · simp [callback, callbackBody]
    · rcases errors with _ | ⟨er, ers⟩ <;> simp [callback, callbackBody]

/-- C9: transforming the same decoded payload at two different clock
readings — as on redelivery — yields rows that agree on every field
except `ingested_at`. -/
theorem redelivery_same_fields (kvs : List (String × JValue))
    (now now' : DateTime) :
    (buildRow kvs now).order_id = (buildRow kvs now').order_id ∧
    (buildRow kvs now).event_type = (buildRow kvs now').event_type ∧
    (buildRow kvs now).event_timestamp = (buildRow kvs now').event_timestamp ∧
    (buildRow kvs now).order_created_at = (buildRow kvs now').order_created_at ∧
    (buildRow kvs now).customer_id = (buildRow kvs now').customer_id ∧
    (buildRow kvs now).amount = (buildRow kvs now').amount ∧
    (buildRow kvs now).currency = (buildRow kvs now').currency ∧
    (buildRow kvs now).source = (buildRow kvs now').source :=
  ⟨rfl, rfl, rfl, rfl, rfl, rfl, rfl, rfl⟩

/-- C10: a payload that decodes to a non-dict value (number, string,
list, boolean, `null`) makes `data.get('order_id')` raise
`AttributeError` before the row is built: no write is attempted, `ack`
is never called, and the top-level handler logs the failure. -/
theorem non_dict_payload_no_write_no_ack (env : Env) (v : JValue)
    (hd : env.decodeResult = .ok v) (hne : ∀ kvs, v ≠ .obj kvs) :
    (callbackBody env).2 = some PyExc.attributeError ∧
    (callback env).writeAttempts = [] ∧
    (callback env).acks = 0 ∧
    LogLine.processingFailed PyExc.attributeError ∈ (callback env).logs := by
  obtain ⟨dr, ir, now⟩ := env
  dsimp only at hd
  subst hd
  cases v with
  | obj kvs => exact absurd rfl (hne kvs)
  | _ => simp [callback, callbackBody]

theorem non_dict_payload_no_write_no_ack_witness :
    (callbackBody ⟨.ok (.num 5), .ok [], ⟨2024, 1, 1, 0, 0, 0, none⟩⟩).2
      = some PyExc.attributeError ∧
    (callback ⟨.ok (.num 5), .ok [], ⟨2024, 1, 1, 0, 0, 0, none⟩⟩).writeAttempts = [] ∧
    (callback ⟨.ok (.num 5), .ok [], ⟨2024, 1, 1, 0, 0, 0, none⟩⟩).acks = 0 :=
  ⟨(non_dict_payload_no_write_no_ack
      ⟨.ok (.num 5), .ok [], ⟨2024, 1, 1, 0, 0, 0, none⟩⟩ (.num 5) rfl
      (fun _ h => JValue.noConfusion h)).1,
   (non_dict_payload_no_write_no_ack
      ⟨.ok (.num 5), .ok [], ⟨2024, 1, 1, 0, 0, 0, none⟩⟩ (.num 5) rfl
      (fun _ h => JValue.noConfusion h)).2.1,
   (non_dict_payload_no_write_no_ack
      ⟨.ok (.num 5), .ok [], ⟨2024, 1, 1, 0, 0, 0, none⟩⟩ (.num 5) rfl
      (fun _ h => JValue.noConfusion h)).2.2.1⟩

theorem ingested_at_worker_assigned_witness :
    (buildRow [] ⟨2024, 1, 1, 0, 0, 0, none⟩).ingested_at
      = DateTime.isoformat ⟨2024, 1, 1, 0, 0, 0, none⟩ ++ "Z" :=
  (ingested_at_worker_assigned [] [] ⟨2024, 1, 1, 0, 0, 0, none⟩).1

theorem example_payload_processing_witness :
    (buildRow examplePayload ⟨2024, 1, 1, 0, 0, 0, none⟩).order_created_at
      = some "2024-01-01T00:00:00+00:00" ∧
    (callback ⟨.ok (.obj examplePayload), .ok [],
        ⟨2024, 1, 1, 0, 0, 0, none⟩⟩).acks = 1 :=
  ⟨(example_payload_processing (.ok []) ⟨2024, 1, 1, 0, 0, 0, none⟩).2.1,
   ((example_payload_processing (.ok [])
      ⟨2024, 1, 1, 0, 0, 0, none⟩).2.2.2.2).mpr rfl⟩

theorem redelivery_same_fields_witness :
    (buildRow [("order_id", .str "x")] ⟨2024, 1, 1, 0, 0, 0, none⟩).order_id
      = (buildRow [("order_id", .str "x")] ⟨2025, 2, 2, 3, 4, 5, none⟩).order_id :=
  (redelivery_same_fields [("order_id", .str "x")]
    ⟨2024, 1, 1, 0, 0, 0, none⟩ ⟨2025, 2, 2, 3, 4, 5, none⟩).1
